import Mathlib

/-!
Verification development for the message ingestion core of rspamd
(src/message.c of the analysed snapshot).  The C source is shallowly
embedded: pure C functions become Lean functions over lists, the task and
part structures become Lean structures, and calls into code that lives in
other translation units (the MIME parser, the tokenizer, the newline
stripper, the charset converter, glib Unicode tables, the cryptobox hash,
the snowball stemmer) are abstracted as oracle parameters, since no claim
constrains their values.  Machine integers are modelled as Nat: all the
quantities involved (lengths, DP cells) stay far below 2^32 on the inputs
admitted by the guards, and the C doubles are modelled as exact rationals.
-/

/-! ## Configuration and basic data model -/

/-- The recognized configuration options of the core
(`struct rspamd_config` fields read by message.c).  The field name
keeps the spelling used in the C source. -/
structure RspamdConfig where
  check_text_attachements : Bool := false
  allow_raw_input : Bool := true
  ignore_received : Bool := false
deriving DecidableEq

/-- Metric actions; message.c only ever installs `METRIC_ACTION_REJECT`. -/
inductive MetricAction where
  | noaction
  | reject
deriving DecidableEq

/-- A MIME part as observed by message.c: content type, content
disposition, raw and decoded payload, weak parent back-reference
(modelled as an index into the ordered parts sequence of the task), and
the flags message.c writes (`RSPAMD_MIME_PART_TEXT` and the
`specific.txt` payload link). -/
structure MimePart where
  ct_type : String := "text"
  ct_subtype : String := "plain"
  cd_attachment : Bool := false
  raw_data : List Char := []
  parsed_data : List Char := []
  parent_idx : Option Nat := none
  flag_text : Bool := false
  specific_set : Bool := false
deriving DecidableEq

/-- A text part (`struct rspamd_mime_text_part`).  Fields that
message.c fills in only on some paths are Options; `none` models the
zero-initialised state of `rspamd_mempool_alloc0`. -/
structure TextPart where
  mime_idx : Nat := 0
  is_html : Bool := false
  is_empty : Bool := false
  is_balanced : Bool := false
  is_utf : Bool := false
  raw : List Char := []
  parsed : List Char := []
  content : List Char := []
  language : Option String := none
  lang_code : Option String := none
  stripped_content : Option (List Char) := none
  nlines : Option Nat := none
  normalized_words : Option (List (List Char)) := none
  normalized_hashes : Option (List Nat) := none
deriving DecidableEq

/-- The task-level state mutated by text part processing: the ordered
text part sequence, the SKIP and GTUBE task flags, the pre-result, the
smtp messages and the inserted symbols. -/
structure TaskState where
  text_parts : List TextPart := []
  flag_skip : Bool := false
  flag_gtube : Bool := false
  pre_result : Option (MetricAction × String) := none
  messages : List String := []
  symbols : List String := []
deriving DecidableEq

/-- Oracles for the external collaborators called from message.c.  Each
field stands for one function that lives outside the analysed file:
`convert` is rspamd_mime_text_part_maybe_convert (returns the converted
content and whether the UTF flag was set), `html_process` is
rspamd_html_process_part_full (returning the sanitized content),
`strip_nl` is rspamd_strip_newlines_parse (stripped content and line
count), `tokenize` is rspamd_tokenize_text, `detect` packages the glib
Unicode script tally of detect_text_language (language code and name, or
none when nothing is set), `stemmer` is sb_stemmer_new/sb_stemmer_stem,
`hash` is rspamd_cryptobox_fast_hash_specific keyed with the fixed seed
0xdeadbabe, and `gen_mid` is rspamd_mime_message_id_generate. -/
structure Oracles where
  convert : List Char → List Char × Bool
  html_process : List Char → List Char
  strip_nl : List Char → List Char × Nat
  tokenize : List Char → List (List Char)
  detect : List Char → Option (String × String)
  stemmer : String → Option (List Char → List Char)
  hash : List Char → Nat
  gen_mid : String

/-! ## Part similarity (rspamd_words_levenshtein_distance)

Faithful translation of the single-row DP of message.c.  `levCells`
computes the new column entries for y = 1..s1len: `up` is the old value
column[y] before overwrite, `left` the freshly written column[y-1], and
`diag` the value `lastdiag`, i.e. the old column[y-1].  Note that the C
code sets `eq` to 1 exactly when the two hashes are EQUAL and then adds
`eq * 2` to the diagonal, which is what the translation reproduces. -/

def levCells (h2 : Nat) : List Nat → List Nat → Nat → Nat → List Nat
  | [], _, _, _ => []
  | _ :: _, [], _, _ => []
  | h1 :: w1r, up :: oldr, left, diag =>
    let eq := if h1 = h2 then 1 else 0
    let cell := min (min (up + 1) (left + 1)) (diag + eq * 2)
    cell :: levCells h2 w1r oldr cell up

/-- One iteration of the outer loop: `column[0] = x` followed by the
inner loop over w1. -/
def levColumn (h2 : Nat) (w1 : List Nat) (x : Nat) (col : List Nat) : List Nat :=
  match col with
  | [] => []
  | c0 :: rest => x :: levCells h2 w1 rest x c0

/-- The outer loop over w2, with `x` counting from 1. -/
def levOuter (w1 : List Nat) : List Nat → Nat → List Nat → List Nat
  | [], _, col => col
  | h2 :: w2r, x, col => levOuter w1 w2r (x + 1) (levColumn h2 w1 x col)

/-- rspamd_words_levenshtein_distance of message.c, over the two token
hash sequences.  The guard returns 0 (after logging an error) when the
combined length exceeds `max_words = 8192`; otherwise the column is
initialised to 0..s1len and the DP runs, returning column[s1len]. -/
def rspamd_words_levenshtein_distance (w1 w2 : List Nat) : Nat :=
  if 8192 < w1.length + w2.length then 0
  else (levOuter w1 w2 1 (List.range (w1.length + 1))).getD w1.length 0

/-- Sanity reference: textbook Levenshtein distance with insert 1,
delete 1, substitute 2 (what the spec describes), used only to witness
the divergence of the code. -/
def specLevenshtein : List Nat → List Nat → Nat
  | [], w2 => w2.length
  | _ :: w1r, [] => (w1r).length + 1
  | h1 :: w1r, h2 :: w2r =>
    let sub := specLevenshtein w1r w2r + (if h1 = h2 then 0 else 2)
    let del := specLevenshtein w1r (h2 :: w2r) + 1
    let ins := specLevenshtein (h1 :: w1r) w2r + 1
    min (min del ins) sub

/-! ## Publication of the two-part diff (rspamd_message_parse, distance hook) -/

/-- The publication step of the two-part distance hook in
rspamd_message_parse: once both hash sequences are at hand, when
`tw = |h1| + |h2| > 0` the code computes the distance, the ratio
`dw / tw`, and sets the pool variables `parts_distance := dw / tw`
(a double, modelled as an exact rational) and `total_words := tw`.
The returned pair is (parts_distance, total_words); `none` means the
variables were not set. -/
def rspamd_parts_distance_publish (h1 h2 : List Nat) : Option (ℚ × Nat) :=
  let tw := h1.length + h2.length
  if 0 < tw then
    let dw := rspamd_words_levenshtein_distance h1 h2
    some ((dw : ℚ) / (tw : ℚ), tw)
  else none

/-- The weak parent back-reference of the MIME part owning a text part:
`p->mime_part->parent_part`, as an index into the task parts sequence. -/
def text_part_parent (parts : List MimePart) (tp : TextPart) : Option Nat :=
  (parts.get? tp.mime_idx).bind (fun mp => mp.parent_idx)

/-- The guard chain of the two-part distance hook for a task whose text
part sequence is exactly [p1, p2]: both parents non-null and pointer
equal, parent content subtype equal to "alternative", neither part
empty, both normalized hash sequences present; then publish. -/
def rspamd_two_parts_check (parts : List MimePart) (p1 p2 : TextPart) : Option (ℚ × Nat) :=
  match text_part_parent parts p1, text_part_parent parts p2 with
  | some i, some j =>
    if i = j then
      match parts.get? i with
      | some pp =>
        if pp.ct_subtype = "alternative" then
          if p1.is_empty = false ∧ p2.is_empty = false then
            match p1.normalized_hashes, p2.normalized_hashes with
            | some h1, some h2 => rspamd_parts_distance_publish h1 h2
            | _, _ => none
          else none
        else none
      | none => none
    else none
  | _, _ => none

/-- The whole distance hook: it fires only when the task has exactly two
text parts. -/
def rspamd_task_two_parts_distance (parts : List MimePart) (tps : List TextPart) :
    Option (ℚ × Nat) :=
  match tps with
  | [p1, p2] => rspamd_two_parts_check parts p1 p2
  | _ => none

/-! ## GTUBE detection (rspamd_check_gtube) -/

/-- The literal GTUBE pattern of message.c (68 bytes; the C
`sizeof (gtube_pattern)` is 69 because it counts the terminating NUL). -/
def gtubePattern : List Char :=
  ("XJS*C4JDBQADN1.NSBN3*2IDNEN*GTUBE-STANDARD-ANTI-UBE-TEST-EMAIL*C.34X").toList

/-- Modelled from the spec: exact substring search.  The C code calls
rspamd_substring_search_twoway (libutil/str_util.c, outside the analysed
sources); the spec describes it as an exact substring match against the
literal pattern. -/
def hasSubstring (pat : List Char) : List Char → Bool
  | [] => pat.isEmpty
  | c :: rest => pat.isPrefixOf (c :: rest) || hasSubstring pat rest

/-- rspamd_check_gtube on the content of a text part.  The length guard
of the C code is `len > sizeof (gtube_pattern) && len <= 4096`, i.e.
strictly more than pattern length + 1 (the NUL included in sizeof). -/
def rspamd_check_gtube (content : List Char) : Bool :=
  if gtubePattern.length + 1 < content.length ∧ content.length ≤ 4096 then
    hasSubstring gtubePattern content
  else false

/-! ## Tokenizer post-processing (rspamd_extract_words) -/

/-- The reserved sentinel token inserted by the tokenizer at exception
splice points. -/
def exSentinel : List Char := ("!!EX!!").toList

/-- Modelled from the spec: byte-wise ASCII lowercase (rspamd_str_lc of
libutil/str_util.c, outside the analysed sources). -/
def rspamd_str_lc (l : List Char) : List Char :=
  l.map (fun c => if 'A' ≤ c ∧ c ≤ 'Z' then Char.ofNat (c.toNat + 32) else c)

/-- Modelled from the spec: Unicode-aware lowercase used for UTF parts
(rspamd_str_lc_utf8, outside the analysed sources).  An in-place
transform, hence length preserving; modelled as a character map. -/
def rspamd_str_lc_utf8 (l : List Char) : List Char :=
  l.map Char.toLower

/-- The per-word normalization step of rspamd_extract_words: words that
are non-empty and are not the literal sentinel "!!EX!!" are stemmed
(truncated to the original length, mirroring `nlen = MIN (strlen (r),
w->len)`) when a stemmer is at hand, and lowercased otherwise; every
other word - including the sentinel - is left untouched. -/
def rspamd_normalize_word (utf : Bool) (stem : Option (List Char → List Char))
    (w : List Char) : List Char :=
  if w ≠ [] ∧ w ≠ exSentinel then
    match stem with
    | some f => (f w).take w.length
    | none => if utf = true then rspamd_str_lc_utf8 w else rspamd_str_lc w
  else w

/-- The loop body of rspamd_extract_words: each word is normalized in
place, and then - under the separate check `w->len > 0`, which does NOT
exclude the sentinel - hashed and appended to normalized_hashes.
Returns (normalized_words, normalized_hashes). -/
def rspamd_extract_words (O : Oracles) (utf : Bool)
    (stem : Option (List Char → List Char)) (words : List (List Char)) :
    List (List Char) × List Nat :=
  let ws := words.map (rspamd_normalize_word utf stem)
  (ws, ws.filterMap (fun w => if w = [] then none else some (O.hash w)))

/-! ## Text part processing (rspamd_message_process_text_part) -/

/-- The attachment skip condition at the top of
rspamd_message_process_text_part: a part with an attachment content
disposition is skipped when a configuration is present and
check_text_attachements is off. -/
def attachments_ignored (cfg : Option RspamdConfig) : Bool :=
  match cfg with
  | some c => !c.check_text_attachements
  | none => false

/-- The content a text part ends up with: for html/xhtml subtypes the
converted data is run through the HTML sanitizer, otherwise the
converted data is used directly. -/
def rspamd_text_part_content (O : Oracles) (mp : MimePart) : List Char :=
  if (mp.ct_subtype == "html" || mp.ct_subtype == "xhtml") = true then
    O.html_process (O.convert mp.parsed_data).1
  else (O.convert mp.parsed_data).1

/-- The post-GTUBE stages of rspamd_message_process_text_part, in source
order: detect_text_language (which only acts on UTF parts),
rspamd_normalize_text_part (newline stripping), and
rspamd_extract_words.  The URL extraction and the exception sort only
touch fields that are not part of this model (task urls and the
exception list ordering). -/
def rspamd_text_part_post_process (O : Oracles) (tp : TextPart) : TextPart :=
  let tp1 := if tp.is_utf = true then
      match O.detect tp.content with
      | some lm => { tp with lang_code := some lm.1, language := some lm.2 }
      | none => tp
    else tp
  let sres := O.strip_nl tp1.content
  let tp2 := { tp1 with stripped_content := some sres.1, nlines := some sres.2 }
  let stem := match tp2.language with
    | some lang => if lang ≠ "" ∧ tp2.is_utf = true then O.stemmer lang else none
    | none => none
  let ew := rspamd_extract_words O tp2.is_utf stem (O.tokenize tp2.content)
  { tp2 with normalized_words := some ew.1, normalized_hashes := some ew.2 }

/-- rspamd_message_process_text_part.  Returns the updated task state
and the updated MIME part.  Source order: attachment skip; text part
allocation (html and plain branches differ only in the HTML/BALANCED
flags and the HTML sanitizer); on empty parsed data the EMPTY-flagged
part is appended and the function returns BEFORE the owning MIME part
receives the TEXT flag and the specific.txt link; otherwise the part is
appended, the MIME part is flagged, and the GTUBE check either records
the pre-result and returns, or the post-processing stages run. -/
def rspamd_message_process_text_part (O : Oracles) (cfg : Option RspamdConfig)
    (st : TaskState) (idx : Nat) (mp : MimePart) : TaskState × MimePart :=
  if (mp.cd_attachment && attachments_ignored cfg) = true then
    (st, mp)
  else
    let isHtml := mp.ct_subtype == "html" || mp.ct_subtype == "xhtml"
    if mp.parsed_data = [] then
      let tp : TextPart :=
        { mime_idx := idx, is_html := isHtml, is_empty := true,
          raw := mp.raw_data, parsed := mp.parsed_data }
      ({ st with text_parts := st.text_parts ++ [tp] }, mp)
    else
      let utf := (O.convert mp.parsed_data).2
      let content := rspamd_text_part_content O mp
      let tp1 : TextPart :=
        { mime_idx := idx, is_html := isHtml,
          is_empty := (isHtml && content.isEmpty),
          is_balanced := isHtml, is_utf := utf,
          raw := mp.raw_data, parsed := mp.parsed_data, content := content }
      let mp1 := { mp with flag_text := true, specific_set := true }
      if rspamd_check_gtube content = true then
        ({ st with
            text_parts := st.text_parts ++ [tp1],
            flag_skip := true, flag_gtube := true,
            pre_result := some (MetricAction.reject, "Gtube pattern"),
            messages := st.messages ++ ["Gtube pattern"],
            symbols := st.symbols ++ ["GTUBE"] }, mp1)
      else
        ({ st with text_parts := st.text_parts ++ [rspamd_text_part_post_process O tp1] },
          mp1)

/-! ## Orchestrator (rspamd_message_parse) -/

/-- g_ascii_isspace: space, tab, newline, carriage return, vertical tab,
form feed. -/
def g_ascii_isspace (c : Char) : Bool :=
  c = ' ' || c = '\t' || c = '\n' || c = '\r' || c = '\x0b' || c = '\x0c'

/-- The input preprocessing at the top of rspamd_message_parse: skip
leading whitespace unconditionally; then - unless the task is
JSON-flagged without the local-client flag - when more than
`sizeof ("From ") - 1 = 5` bytes remain and they start with "From ",
skip up to the next LF (the loop stops AT the LF) and then any following
whitespace. -/
def rspamd_message_preprocess (json local_client : Bool) (msg : List Char) : List Char :=
  let p := msg.dropWhile g_ascii_isspace
  if json = false ∨ local_client = true then
    if 5 < p.length then
      if ("From ").toList.isPrefixOf p = true then
        ((p.drop 5).dropWhile (fun c => c ≠ '\n')).dropWhile g_ascii_isspace
      else p
    else p
  else p

/-- The Message-ID bracket stripping of rspamd_message_parse: a leading
angle bracket is dropped, and the trailing one is dropped as well only
when the value both begins with the opening bracket and ends with the
closing one. -/
def rspamd_strip_message_id (s : String) : String :=
  match s.data with
  | '<' :: rest =>
    if rest.getLast? = some '>' then String.mk rest.dropLast else String.mk rest
  | _ => s

/-- rspamd_message_get_header_array on the task raw headers, modelled as
a first-match lookup in an association list from header name to the
ordered decoded values. -/
def headerLookup (hs : List (String × List String)) (name : String) :
    Option (List String) :=
  match hs with
  | [] => none
  | (n, vs) :: rest => if n = name then some vs else headerLookup rest name

/-- The configuration part of the only fatal condition:
`task->cfg && !task->cfg->allow_raw_input`. -/
def cfgForbidsRaw (cfg : Option RspamdConfig) : Bool :=
  match cfg with
  | some c => !c.allow_raw_input
  | none => false

/-- The task as rspamd_message_parse receives it.  The fields that are
produced by external collaborators before or during parse are inputs:
`mime_ok`/`mime_err` are the outcome of rspamd_mime_parse_task,
`headers` the raw header map the MIME parser fills, `parts` the MIME
part sequence. -/
structure RspamdTask where
  msg : List Char := []
  flag_json : Bool := false
  flag_local_client : Bool := false
  flag_mime : Bool := true
  cfg : Option RspamdConfig := none
  mime_ok : Bool := true
  mime_err : Option String := none
  headers : List (String × List String) := []
  parts : List MimePart := []
  message_id : Option String := none
  queue_id : Option String := none
  subject : Option String := none
deriving DecidableEq

/-- The observable outcome of rspamd_message_parse: the boolean return,
the recorded error, the preprocessed message, the derived ids and
subject, the text processing state, the updated parts, and the two-part
distance variables. -/
structure ParseResult where
  ok : Bool
  err : Option String
  msg : List Char
  message_id : Option String
  queue_id : Option String
  subject : Option String
  tstate : TaskState
  parts : List MimePart
  distance_vars : Option (ℚ × Nat)
deriving DecidableEq

/-- The part walk of rspamd_message_parse: every part whose content type
is text (IS_CT_TEXT) goes through rspamd_message_process_text_part;
`idx` tracks the position, giving text parts their back-reference. -/
def rspamd_process_parts (O : Oracles) (cfg : Option RspamdConfig) :
    TaskState → List MimePart → Nat → TaskState × List MimePart
  | st, [], _ => (st, [])
  | st, mp :: rest, idx =>
    let r := if mp.ct_type = "text" then
        rspamd_message_process_text_part O cfg st idx mp
      else (st, mp)
    let rr := rspamd_process_parts O cfg r.1 rest (idx + 1)
    (rr.1, r.2 :: rr.2)

/-- rspamd_message_parse.  Empty tasks return success immediately.
Otherwise: preprocess; if the task is MIME-flagged and the MIME parser
failed, either fail (configuration present and raw input forbidden,
recording the parser error) or fall back to rspamd_message_from_data,
which synthesizes the message id and queue id from the generator; then
the message id is taken from the first Message-ID header with bracket
stripping, falling back to "undef"; the subject from the first Subject
header; the text parts are processed; and the two-part distance hook
runs.  Stages that only touch fields outside this model (images,
archives, received chain, recipients, urls in the subject, the digest)
are not represented.  Note rspamd_message_from_data builds a fake part
but never appends it to the task parts in this snapshot. -/
def rspamd_message_parse (O : Oracles) (t : RspamdTask) : ParseResult :=
  if t.msg = [] then
    { ok := true, err := none, msg := t.msg, message_id := t.message_id,
      queue_id := t.queue_id, subject := t.subject, tstate := {},
      parts := t.parts, distance_vars := none }
  else
    let m := rspamd_message_preprocess t.flag_json t.flag_local_client t.msg
    if t.flag_mime = true ∧ t.mime_ok = false ∧ cfgForbidsRaw t.cfg = true then
      { ok := false, err := t.mime_err, msg := m, message_id := t.message_id,
        queue_id := t.queue_id, subject := t.subject, tstate := {},
        parts := t.parts, distance_vars := none }
    else
      let mid0 := if t.flag_mime = false ∨ t.mime_ok = false
        then some O.gen_mid else t.message_id
      let qid0 := if t.flag_mime = false ∨ t.mime_ok = false
        then some O.gen_mid else t.queue_id
      let mid1 := match headerLookup t.headers "Message-ID" with
        | some (h :: _) => some (rspamd_strip_message_id h)
        | _ => mid0
      let mid2 := match mid1 with
        | none => some "undef"
        | some s => some s
      let subj := match t.subject with
        | some s => some s
        | none => match headerLookup t.headers "Subject" with
          | some (h :: _) => some h
          | _ => none
      let qid1 := match qid0 with
        | none => some "undef"
        | some s => some s
      let pr := rspamd_process_parts O t.cfg {} t.parts 0
      { ok := true, err := none, msg := m, message_id := mid2,
        queue_id := qid1, subject := subj, tstate := pr.1, parts := pr.2,
        distance_vars := rspamd_task_two_parts_distance pr.2 pr.1.text_parts }

/-! ## Concrete instances used by closed witnesses and counterexamples -/

/-- A concrete oracle bundle: identity conversion flagged UTF, identity
HTML processing, identity newline stripping, empty tokenization, no
language, no stemmer, and a simple executable 64-bit polynomial hash
seeded with 0xdeadbabe standing in for the external cryptobox hash
(Modelled from the spec: 64-bit non-cryptographic hash keyed by the
fixed seed; the concrete mixing is irrelevant to every claim). -/
def trivialOracles : Oracles :=
  { convert := fun l => (l, true)
    html_process := fun l => l
    strip_nl := fun l => (l, 0)
    tokenize := fun _ => []
    detect := fun _ => none
    stemmer := fun _ => none
    hash := fun w => w.foldl (fun h c => (h * 31 + c.toNat) % (2 ^ 64)) 0xdeadbabe
    gen_mid := "generated@localhost.localdomain" }

/-- A multipart/alternative parent part. -/
def cxAltParent : MimePart :=
  { ct_type := "multipart", ct_subtype := "alternative", parsed_data := [] }

/-- A text child of the alternative parent. -/
def cxChild : MimePart :=
  { ct_type := "text", ct_subtype := "plain", parent_idx := some 0 }

/-- The parts sequence of the concrete two-part task. -/
def cxParts : List MimePart := [cxAltParent, cxChild, cxChild]

/-- First text part of the concrete two-part task, hashes [1, 2, 3]. -/
def cxTp1 : TextPart :=
  { mime_idx := 1, normalized_hashes := some [1, 2, 3] }

/-- Second text part of the concrete two-part task, hashes [1, 2, 4]. -/
def cxTp2 : TextPart :=
  { mime_idx := 2, normalized_hashes := some [1, 2, 4] }

/-- First text part of the witness task, hashes [5]. -/
def wTp1 : TextPart := { mime_idx := 1, normalized_hashes := some [5] }

/-- Second text part of the witness task, hashes [5]. -/
def wTp2 : TextPart := { mime_idx := 2, normalized_hashes := some [5] }

/-- A text/plain MIME part whose decoded content is exactly the 68-byte
GTUBE pattern. -/
def gtubeExactMp : MimePart :=
  { ct_type := "text", ct_subtype := "plain",
    raw_data := gtubePattern, parsed_data := gtubePattern }

/-- A text/plain MIME part whose decoded content is the GTUBE pattern
followed by two extra bytes (70 bytes, above the sizeof guard). -/
def gtubeLongMp : MimePart :=
  { ct_type := "text", ct_subtype := "plain",
    raw_data := gtubePattern ++ ("ab").toList,
    parsed_data := gtubePattern ++ ("ab").toList }

/-- A text-typed attachment part with empty decoded data. -/
def attEmptyMp : MimePart :=
  { ct_type := "text", ct_subtype := "plain", cd_attachment := true,
    parsed_data := [] }

/-- A configuration that does not check text attachments. -/
def cfgNoAtt : RspamdConfig :=
  { check_text_attachements := false, allow_raw_input := true }

/-- A configuration that forbids raw input. -/
def cfgForbid : RspamdConfig :=
  { check_text_attachements := false, allow_raw_input := false }

/-- A MIME-flagged task whose MIME parse failed under a configuration
that forbids raw input. -/
def failTask : RspamdTask :=
  { msg := [ 'a' ], flag_mime := true, mime_ok := false,
    cfg := some cfgForbid, mime_err := some "bad mime" }

/-- The empty task: no bytes, no preset message id. -/
def emptyTask : RspamdTask := {}

/-- A successfully MIME-parsed task carrying a bracketed Message-ID
header. -/
def midTask : RspamdTask :=
  { msg := ("A").toList, flag_mime := true, mime_ok := true,
    headers := [("Message-ID", ["<abc@x>"])] }

/-! ## Helper lemmas -/

/-- isPrefixOf in terms of take, proved from first principles to state
the mbox condition both ways. -/
theorem isPrefixOf_iff_take (p : List Char) : ∀ l : List Char,
    (p.isPrefixOf l = true ↔ l.take p.length = p) := by
  induction p with
  | nil => intro l; simp [List.isPrefixOf]
  | cons a p ih =>
    intro l
    cases l with
    | nil => simp [List.isPrefixOf]
    | cons b l =>
      simp only [List.isPrefixOf, Bool.and_eq_true, beq_iff_eq, List.length_cons,
        List.take_succ_cons, List.cons.injEq, ih l]
      constructor
      · rintro ⟨h1, h2⟩; exact ⟨h1.symm, h2⟩
      · rintro ⟨h1, h2⟩; exact ⟨h1.symm, h2⟩

/-- Shared helper: above the 8192-word guard the publication still
happens, with a distance of 0. -/
theorem publish_over_limit (h1 h2 : List Nat) (h : 8192 < h1.length + h2.length) :
    rspamd_parts_distance_publish h1 h2 = some (0, h1.length + h2.length) := by
  have h0 : 0 < h1.length + h2.length := lt_trans (by norm_num) h
  unfold rspamd_parts_distance_publish rspamd_words_levenshtein_distance
  rw [if_pos h0, if_pos h]
  norm_num

/-- The fatal configuration condition, unfolded. -/
theorem cfgForbidsRaw_iff (cfg : Option RspamdConfig) :
    cfgForbidsRaw cfg = true ↔ ∃ c, cfg = some c ∧ c.allow_raw_input = false := by
  cases cfg with
  | none => simp [cfgForbidsRaw]
  | some c =>
    simp only [cfgForbidsRaw, Bool.not_eq_true', Option.some.injEq]
    constructor
    · intro h; exact ⟨c, rfl, h⟩
    · rintro ⟨c2, hc2, h⟩; rw [hc2]; exact h

/-- Normalizing a word with no stemmer preserves emptiness. -/
theorem normalize_word_nil_iff (utf : Bool) (w : List Char) :
    rspamd_normalize_word utf none w = [] ↔ w = [] := by
  unfold rspamd_normalize_word
  by_cases h : w ≠ [] ∧ w ≠ exSentinel
  · rw [if_pos h]
    cases utf <;> simp [rspamd_str_lc, rspamd_str_lc_utf8]
  · rw [if_neg h]

/-- Shared helper: with no stemmer, the filtered hash list over the
normalized words has one entry per non-empty token. -/
theorem filterMap_norm_len (O : Oracles) (utf : Bool) : ∀ words : List (List Char),
    ((words.map (rspamd_normalize_word utf none)).filterMap
        (fun w => if w = [] then none else some (O.hash w))).length =
      words.countP (fun w => !w.isEmpty)
  | [] => rfl
  | w :: ws => by
    simp only [List.map_cons, List.filterMap_cons, List.countP_cons]
    by_cases hw : w = []
    · subst hw
      have hn : rspamd_normalize_word utf none ([] : List Char) = [] :=
        (normalize_word_nil_iff utf []).mpr rfl
      rw [hn, if_pos rfl, filterMap_norm_len O utf ws]
      rfl
    · have hn : rspamd_normalize_word utf none w ≠ [] := by
        rw [Ne, normalize_word_nil_iff]; exact hw
      rw [if_neg hn]
      have hpw : (!w.isEmpty) = true := by
        cases w with
        | nil => exact absurd rfl hw
        | cons a l => rfl
      rw [hpw, if_pos rfl, List.length_cons, filterMap_norm_len O utf ws]

/-- Shared helper: with no stemmer, the hash sequence length equals the
number of non-empty tokens. -/
theorem extract_words_hashes_len (O : Oracles) (utf : Bool)
    (words : List (List Char)) :
    ((rspamd_extract_words O utf none words).2).length =
      words.countP (fun w => !w.isEmpty) :=
  filterMap_norm_len O utf words

/-- Shared helper: a sentinel among the tokens survives in the filtered
hash list. -/
theorem filterMap_norm_sentinel (O : Oracles) (utf : Bool)
    (stem : Option (List Char → List Char)) : ∀ words : List (List Char),
    exSentinel ∈ words →
    O.hash exSentinel ∈ (words.map (rspamd_normalize_word utf stem)).filterMap
      (fun w => if w = [] then none else some (O.hash w))
  | [], h => absurd h (List.not_mem_nil _)
  | w :: ws, h => by
    simp only [List.map_cons, List.filterMap_cons]
    rcases List.mem_cons.mp h with he | hm
    · have hn : rspamd_normalize_word utf stem w = w := by
        unfold rspamd_normalize_word
        rw [if_neg]
        rintro ⟨-, hne⟩
        exact hne he.symm
      rw [hn, ← he, if_neg (by decide : ¬ (exSentinel = ([] : List Char)))]
      exact List.mem_cons_self _ _
    · have htail := filterMap_norm_sentinel O utf stem ws hm
      by_cases hz : rspamd_normalize_word utf stem w = []
      · rw [hz, if_pos rfl]; exact htail
      · rw [if_neg hz]; exact List.mem_cons_of_mem _ htail

/-- Shared helper: a sentinel occurring among the tokens is hashed,
whether or not a stemmer is in effect. -/
theorem extract_words_sentinel_mem (O : Oracles) (utf : Bool)
    (stem : Option (List Char → List Char))
    (words : List (List Char)) (h : exSentinel ∈ words) :
    O.hash exSentinel ∈ (rspamd_extract_words O utf stem words).2 :=
  filterMap_norm_sentinel O utf stem words h

/-! ## C1: the single-row Levenshtein of message.c -/

/-- C1: the claim states that rspamd_words_levenshtein_distance is the
standard Levenshtein distance with insert 1, delete 1, substitute 2, and
in particular that identical sequences are at distance 0.  The code
inverts the eq flag (`eq = (h1 == h2) ? 1 : 0` feeding `lastdiag +
eq * 2`), charging the doubled substitution cost exactly when the hashes
are EQUAL: the pair of identical one-element sequences [1], [1] is at
code distance 2 where the specified distance is 0, and the disjoint
pair [1], [2] is at code distance 0 where the specified distance is 2. -/
theorem rspamd_levenshtein_inverted_cost_eval :
    rspamd_words_levenshtein_distance [1] [1] = 2 ∧
    specLevenshtein [1] [1] = 0 ∧
    rspamd_words_levenshtein_distance [1] [2] = 0 ∧
    specLevenshtein [1] [2] = 2 := by
  refine ⟨by decide, ?_, by decide, ?_⟩ <;> simp [specLevenshtein]

/-! ## C2: the 8192-word guard -/

/-- C2 (amended): when the combined hash sequence length of the two
qualifying parts exceeds 8192, the DP is skipped and the distance
function returns 0 after logging - but the caller still publishes the
similarity values: parts_distance is set to 0 and total_words to the
combined length. -/
theorem parts_distance_guard_amended (h1 h2 : List Nat)
    (h : 8192 < h1.length + h2.length) :
    rspamd_parts_distance_publish h1 h2 = some (0, h1.length + h2.length) :=
  publish_over_limit h1 h2 h

/-- C2 (counterexample): with 8193 combined hashes the claim says no
parts_distance variable is set, yet the hook publishes
parts_distance = 0 and total_words = 8193. -/
theorem parts_distance_guard_sets_variable :
    rspamd_parts_distance_publish (List.replicate 8193 0) [] = some (0, 8193) := by
  have h := publish_over_limit (List.replicate 8193 0) []
    (by rw [List.length_replicate]; norm_num)
  rw [h]
  norm_num

/-- C2 (witness): the amended theorem applied to a concrete over-limit
input. -/
theorem parts_distance_guard_amended_witness :
    rspamd_parts_distance_publish (List.replicate 8200 1) [] = some (0, 8200) := by
  have h := parts_distance_guard_amended (List.replicate 8200 1) []
    (by rw [List.length_replicate]; norm_num)
  rw [h]
  norm_num

/-! ## C3: publication of the two-part diff variables -/

/-- Shared helper: the guard chain of the distance hook, satisfied,
leads to the publication of (distance / tw, tw). -/
theorem two_parts_check_publish
    (parts : List MimePart) (tps : List TextPart) (p1 p2 : TextPart)
    (i : Nat) (pp : MimePart) (h1 h2 : List Nat)
    (htps : tps = [p1, p2])
    (hpar1 : text_part_parent parts p1 = some i)
    (hpar2 : text_part_parent parts p2 = some i)
    (hget : parts.get? i = some pp)
    (hsubt : pp.ct_subtype = "alternative")
    (he1 : p1.is_empty = false) (he2 : p2.is_empty = false)
    (hh1 : p1.normalized_hashes = some h1)
    (hh2 : p2.normalized_hashes = some h2)
    (htw : 0 < h1.length + h2.length) :
    rspamd_task_two_parts_distance parts tps =
      some (((rspamd_words_levenshtein_distance h1 h2 : ℚ)) /
          ((h1.length + h2.length : Nat) : ℚ),
        h1.length + h2.length) := by
  subst htps
  show rspamd_two_parts_check parts p1 p2 = _
  simp only [rspamd_two_parts_check, hpar1, hpar2, hget, hsubt, he1, he2,
    hh1, hh2, if_true, eq_self_iff_true, and_self]
  unfold rspamd_parts_distance_publish
  rw [if_pos htw]

/-- C3 (amended): when the two-part similarity hook runs - exactly two
text parts whose MIME parts share a non-null multipart/alternative
parent, neither part empty, both hash sequences present with positive
combined length - the hook publishes the ratio
distance / (|h1| + |h2|) as the float variable parts_distance and the
COMBINED TOKEN COUNT |h1| + |h2| as the int variable total_words; the
raw distance itself is not published as a variable. -/
theorem two_parts_distance_publish_amended
    (parts : List MimePart) (tps : List TextPart) (p1 p2 : TextPart)
    (i : Nat) (pp : MimePart) (h1 h2 : List Nat)
    (htps : tps = [p1, p2])
    (hpar1 : text_part_parent parts p1 = some i)
    (hpar2 : text_part_parent parts p2 = some i)
    (hget : parts.get? i = some pp)
    (hsubt : pp.ct_subtype = "alternative")
    (he1 : p1.is_empty = false) (he2 : p2.is_empty = false)
    (hh1 : p1.normalized_hashes = some h1)
    (hh2 : p2.normalized_hashes = some h2)
    (htw : 0 < h1.length + h2.length) :
    rspamd_task_two_parts_distance parts tps =
      some (((rspamd_words_levenshtein_distance h1 h2 : ℚ)) /
          ((h1.length + h2.length : Nat) : ℚ),
        h1.length + h2.length) :=
  two_parts_check_publish parts tps p1 p2 i pp h1 h2 htps hpar1 hpar2 hget
    hsubt he1 he2 hh1 hh2 htw

/-- C3 (counterexample): on the concrete alternative pair with hash
sequences [1, 2, 3] and [1, 2, 4], the hook publishes the float 1/3 and
the int 6, while the raw edit distance computed by the code is 2 - the
published integer is the combined token count, not the raw distance the
claim names. -/
theorem parts_distance_total_words_cx :
    rspamd_task_two_parts_distance cxParts [cxTp1, cxTp2] = some (1 / 3, 6) ∧
    rspamd_words_levenshtein_distance [1, 2, 3] [1, 2, 4] = 2 ∧
    (6 : Nat) ≠ 2 := by
  have hdist : rspamd_words_levenshtein_distance [1, 2, 3] [1, 2, 4] = 2 := by
    decide
  have h := two_parts_check_publish cxParts [cxTp1, cxTp2] cxTp1 cxTp2
    0 cxAltParent [1, 2, 3] [1, 2, 4] rfl (by decide) (by decide) (by decide)
    (by decide) (by decide) (by decide) (by decide) (by decide) (by decide)
  refine ⟨?_, hdist, by decide⟩
  rw [h, hdist]
  norm_num

/-- C3 (witness): the amended theorem applied to the concrete witness
pair with identical singleton hash sequences [5], [5]: the code distance
is 2, so parts_distance = 2 / 2 = 1 and total_words = 2. -/
theorem two_parts_distance_publish_amended_witness :
    rspamd_task_two_parts_distance cxParts [wTp1, wTp2] = some (1, 2) := by
  have h := two_parts_distance_publish_amended cxParts [wTp1, wTp2] wTp1 wTp2
    0 cxAltParent [5] [5] rfl (by decide) (by decide) (by decide) (by decide)
    (by decide) (by decide) (by decide) (by decide) (by decide)
  rw [h, (by decide : rspamd_words_levenshtein_distance [5] [5] = 2)]
  norm_num

/-! ## C4 and C9: GTUBE detection and its early return -/

/-- Shared helper: a part that is not skipped as an attachment, has
non-empty decoded data, and whose content passes the GTUBE check, makes
rspamd_message_process_text_part record the full GTUBE verdict and
append the text part without running any post-processing stage. -/
theorem process_text_part_gtube (O : Oracles) (cfg : Option RspamdConfig)
    (st : TaskState) (idx : Nat) (mp : MimePart)
    (hskip : (mp.cd_attachment && attachments_ignored cfg) = false)
    (hne : mp.parsed_data ≠ [])
    (hg : rspamd_check_gtube (rspamd_text_part_content O mp) = true) :
    (rspamd_message_process_text_part O cfg st idx mp).1 =
      { st with
          text_parts := st.text_parts ++
            [{ mime_idx := idx,
               is_html := mp.ct_subtype == "html" || mp.ct_subtype == "xhtml",
               is_empty := ((mp.ct_subtype == "html" || mp.ct_subtype == "xhtml") &&
                 (rspamd_text_part_content O mp).isEmpty),
               is_balanced := mp.ct_subtype == "html" || mp.ct_subtype == "xhtml",
               is_utf := (O.convert mp.parsed_data).2,
               raw := mp.raw_data, parsed := mp.parsed_data,
               content := rspamd_text_part_content O mp }],
          flag_skip := true, flag_gtube := true,
          pre_result := some (MetricAction.reject, "Gtube pattern"),
          messages := st.messages ++ ["Gtube pattern"],
          symbols := st.symbols ++ ["GTUBE"] } := by
  unfold rspamd_message_process_text_part
  rw [if_neg (by rw [hskip]; exact Bool.false_ne_true), if_neg hne, if_pos hg]

/-- C4 (amended): for every text part whose content is at most 4 KiB,
is at least 70 bytes (the code requires content length strictly greater
than `sizeof (gtube_pattern)`, i.e. the 68-byte pattern plus its NUL),
and contains the literal GTUBE pattern as a substring, the task gets the
SKIP and GTUBE flags, the pre-result becomes Reject with message
"Gtube pattern", and a GTUBE symbol is inserted. -/
theorem gtube_detection_amended (O : Oracles) (cfg : Option RspamdConfig)
    (st : TaskState) (idx : Nat) (mp : MimePart)
    (hskip : (mp.cd_attachment && attachments_ignored cfg) = false)
    (hne : mp.parsed_data ≠ [])
    (hlen1 : gtubePattern.length + 1 < (rspamd_text_part_content O mp).length)
    (hlen2 : (rspamd_text_part_content O mp).length ≤ 4096)
    (hsub : hasSubstring gtubePattern (rspamd_text_part_content O mp) = true) :
    (rspamd_message_process_text_part O cfg st idx mp).1.flag_skip = true ∧
    (rspamd_message_process_text_part O cfg st idx mp).1.flag_gtube = true ∧
    (rspamd_message_process_text_part O cfg st idx mp).1.pre_result =
      some (MetricAction.reject, "Gtube pattern") ∧
    "GTUBE" ∈ (rspamd_message_process_text_part O cfg st idx mp).1.symbols := by
  have hg : rspamd_check_gtube (rspamd_text_part_content O mp) = true := by
    unfold rspamd_check_gtube
    rw [if_pos (And.intro hlen1 hlen2)]
    exact hsub
  rw [process_text_part_gtube O cfg st idx mp hskip hne hg]
  refine ⟨rfl, rfl, rfl, ?_⟩
  exact List.mem_append_right _ (List.mem_singleton.mpr rfl)

/-- C4 (counterexample): a text part whose content is exactly the
68-byte GTUBE pattern contains the pattern and is well below 4 KiB, yet
the length guard `len > sizeof (gtube_pattern)` fails and no GTUBE
verdict is recorded. -/
theorem gtube_exact_pattern_not_detected :
    hasSubstring gtubePattern gtubePattern = true ∧
    gtubePattern.length ≤ 4096 ∧
    (rspamd_message_process_text_part trivialOracles none {} 0 gtubeExactMp).1.flag_gtube
      = false ∧
    (rspamd_message_process_text_part trivialOracles none {} 0 gtubeExactMp).1.pre_result
      = none := by
  refine ⟨by decide, by decide, by decide, by decide⟩

/-- C4 (witness): the amended theorem applied to a 70-byte content made
of the pattern plus two bytes. -/
theorem gtube_detection_amended_witness :
    (rspamd_message_process_text_part trivialOracles none {} 0 gtubeLongMp).1.flag_skip
      = true ∧
    (rspamd_message_process_text_part trivialOracles none {} 0 gtubeLongMp).1.flag_gtube
      = true ∧
    (rspamd_message_process_text_part trivialOracles none {} 0 gtubeLongMp).1.pre_result
      = some (MetricAction.reject, "Gtube pattern") ∧
    "GTUBE" ∈ (rspamd_message_process_text_part trivialOracles none {} 0 gtubeLongMp).1.symbols :=
  gtube_detection_amended trivialOracles none {} 0 gtubeLongMp (by decide)
    (by decide) (by decide) (by decide) (by decide)

/-- C9 (confirmed): whenever the GTUBE pattern is found in a text part,
rspamd_message_process_text_part returns right after recording the
pre-result: the appended text part has no language, no stripped content,
no normalized words and no normalized hashes - the post-processing
stages never ran for it. -/
theorem gtube_part_fields_unset (O : Oracles) (cfg : Option RspamdConfig)
    (st : TaskState) (idx : Nat) (mp : MimePart)
    (hskip : (mp.cd_attachment && attachments_ignored cfg) = false)
    (hne : mp.parsed_data ≠ [])
    (hg : rspamd_check_gtube (rspamd_text_part_content O mp) = true) :
    ∃ tp : TextPart,
      (rspamd_message_process_text_part O cfg st idx mp).1.text_parts =
        st.text_parts ++ [tp] ∧
      tp.language = none ∧ tp.stripped_content = none ∧
      tp.normalized_words = none ∧ tp.normalized_hashes = none ∧
      (rspamd_message_process_text_part O cfg st idx mp).1.pre_result =
        some (MetricAction.reject, "Gtube pattern") := by
  rw [process_text_part_gtube O cfg st idx mp hskip hne hg]
  exact ⟨_, rfl, rfl, rfl, rfl, rfl, rfl⟩

/-- C9 (witness): the theorem applied to the concrete 70-byte GTUBE
part. -/
theorem gtube_part_fields_unset_witness :
    ∃ tp : TextPart,
      (rspamd_message_process_text_part trivialOracles none {} 0 gtubeLongMp).1.text_parts =
        ({} : TaskState).text_parts ++ [tp] ∧
      tp.language = none ∧ tp.stripped_content = none ∧
      tp.normalized_words = none ∧ tp.normalized_hashes = none ∧
      (rspamd_message_process_text_part trivialOracles none {} 0 gtubeLongMp).1.pre_result =
        some (MetricAction.reject, "Gtube pattern") :=
  gtube_part_fields_unset trivialOracles none {} 0 gtubeLongMp (by decide)
    (by decide) (by decide)

/-! ## C5: the hash sequence of rspamd_extract_words -/

/-- C5 (amended): with no stemmer in effect, the normalized-hashes
sequence produced by rspamd_extract_words has exactly one 64-bit hash
per non-empty token - the sentinel "!!EX!!" INCLUDED: the sentinel is
excluded only from the lowercasing/stemming normalization, and whenever
it occurs among the tokens its verbatim hash appears in the output. -/
theorem extract_words_hashes_amended (O : Oracles) (utf : Bool)
    (words : List (List Char)) :
    ((rspamd_extract_words O utf none words).2).length =
      words.countP (fun w => !w.isEmpty) ∧
    (exSentinel ∈ words →
      O.hash exSentinel ∈ (rspamd_extract_words O utf none words).2) :=
  ⟨extract_words_hashes_len O utf words,
    fun h => extract_words_sentinel_mem O utf none words h⟩

/-- C5 (counterexample): the claim says no element of the hash sequence
is the hash of the literal sentinel "!!EX!!"; but on the token list
["!!EX!!"] the code emits exactly that hash (the sentinel passes the
separate `w->len > 0` check guarding the hash append). -/
theorem sentinel_hash_emitted_cx :
    trivialOracles.hash exSentinel ∈
      (rspamd_extract_words trivialOracles true none [exSentinel]).2 := by
  decide

/-- C5 (witness): the amended theorem applied to the concrete token list
[sentinel, "ab"]. -/
theorem extract_words_hashes_amended_witness :
    ((rspamd_extract_words trivialOracles true none
        [exSentinel, ('a' :: 'b' :: [])]).2).length = 2 ∧
    trivialOracles.hash exSentinel ∈
      (rspamd_extract_words trivialOracles true none
        [exSentinel, ('a' :: 'b' :: [])]).2 := by
  have h := extract_words_hashes_amended trivialOracles true
    [exSentinel, ('a' :: 'b' :: [])]
  exact ⟨h.1.trans (by decide), h.2 (by decide)⟩

/-! ## C10: empty text parts -/

/-- Shared helper: outside the attachment skip, an empty decoded payload
makes rspamd_message_process_text_part append an EMPTY-flagged text part
and return with the MIME part untouched. -/
theorem process_text_part_empty (O : Oracles) (cfg : Option RspamdConfig)
    (st : TaskState) (idx : Nat) (mp : MimePart)
    (hskip : (mp.cd_attachment && attachments_ignored cfg) = false)
    (hempty : mp.parsed_data = []) :
    rspamd_message_process_text_part O cfg st idx mp =
      ({ st with text_parts := st.text_parts ++
          [{ mime_idx := idx,
             is_html := mp.ct_subtype == "html" || mp.ct_subtype == "xhtml",
             is_empty := true,
             raw := mp.raw_data, parsed := mp.parsed_data }] }, mp) := by
  unfold rspamd_message_process_text_part
  rw [if_neg (by rw [hskip]; exact Bool.false_ne_true), if_pos hempty]

/-- C10 (amended): for every text-typed MIME part that is NOT skipped by
the attachment check and whose parsed data is empty,
rspamd_message_process_text_part appends a text part flagged EMPTY to
the text part sequence and returns before the owning MIME part is given
the TEXT flag or the specific.txt link: the MIME part comes back
completely unchanged. -/
theorem empty_text_part_appended_amended (O : Oracles) (cfg : Option RspamdConfig)
    (st : TaskState) (idx : Nat) (mp : MimePart)
    (hskip : (mp.cd_attachment && attachments_ignored cfg) = false)
    (hempty : mp.parsed_data = []) :
    (∃ tp : TextPart,
      (rspamd_message_process_text_part O cfg st idx mp).1.text_parts =
        st.text_parts ++ [tp] ∧ tp.is_empty = true) ∧
    (rspamd_message_process_text_part O cfg st idx mp).2 = mp := by
  rw [process_text_part_empty O cfg st idx mp hskip hempty]
  exact ⟨⟨_, rfl, rfl⟩, rfl⟩

/-- C10 (counterexample): a text-typed attachment part with empty parsed
data, under a configuration that does not check text attachments, is
skipped wholesale - no EMPTY text part is appended, contradicting the
claim for this text-typed MIME part with empty parsed data. -/
theorem empty_attachment_not_appended_cx :
    attEmptyMp.ct_type = "text" ∧
    attEmptyMp.parsed_data = [] ∧
    rspamd_message_process_text_part trivialOracles (some cfgNoAtt) {} 0 attEmptyMp
      = ({}, attEmptyMp) ∧
    (rspamd_message_process_text_part trivialOracles (some cfgNoAtt) {} 0 attEmptyMp).1.text_parts
      = [] := by
  refine ⟨rfl, rfl, rfl, rfl⟩

/-- C10 (witness): the amended theorem applied to a concrete
non-attachment text part with empty parsed data. -/
theorem empty_text_part_appended_amended_witness :
    (∃ tp : TextPart,
      (rspamd_message_process_text_part trivialOracles (some cfgNoAtt) {} 0
        { ct_type := "text", ct_subtype := "plain", parsed_data := [] }).1.text_parts =
        ({} : TaskState).text_parts ++ [tp] ∧ tp.is_empty = true) ∧
    (rspamd_message_process_text_part trivialOracles (some cfgNoAtt) {} 0
      { ct_type := "text", ct_subtype := "plain", parsed_data := [] }).2 =
      { ct_type := "text", ct_subtype := "plain", parsed_data := [] } :=
  empty_text_part_appended_amended trivialOracles (some cfgNoAtt) {} 0
    { ct_type := "text", ct_subtype := "plain", parsed_data := [] } rfl rfl

/-! ## C6: the failure surface of rspamd_message_parse -/

/-- C6 (confirmed): rspamd_message_parse succeeds on every input, with
exactly one exception - the task is MIME-flagged, the MIME parser
failed, and a configuration is present whose allow_raw_input is false;
in that case the parser error carried by the task is recorded. -/
theorem message_parse_success_iff (O : Oracles) (t : RspamdTask) :
    ((rspamd_message_parse O t).ok = false ↔
      (t.msg ≠ [] ∧ t.flag_mime = true ∧ t.mime_ok = false ∧
        ∃ c, t.cfg = some c ∧ c.allow_raw_input = false)) ∧
    ((rspamd_message_parse O t).ok = false →
      (rspamd_message_parse O t).err = t.mime_err) := by
  by_cases hmsg : t.msg = []
  · constructor
    · simp [rspamd_message_parse, hmsg]
    · intro hok
      exact absurd hok (by simp [rspamd_message_parse, hmsg])
  · by_cases hfail : t.flag_mime = true ∧ t.mime_ok = false ∧ cfgForbidsRaw t.cfg = true
    · have hco : (rspamd_message_parse O t).ok = false := by
        simp [rspamd_message_parse, hmsg, hfail]
      constructor
      · rw [hco]
        simp only [eq_self_iff_true, true_iff]
        exact ⟨hmsg, hfail.1, hfail.2.1, (cfgForbidsRaw_iff t.cfg).mp hfail.2.2⟩
      · intro _
        simp [rspamd_message_parse, hmsg, hfail]
    · have hco : (rspamd_message_parse O t).ok = true := by
        simp [rspamd_message_parse, hmsg, hfail]
      constructor
      · rw [hco]
        simp only [Bool.true_eq_false, false_iff]
        rintro ⟨-, h1, h2, h3⟩
        exact hfail ⟨h1, h2, (cfgForbidsRaw_iff t.cfg).mpr h3⟩
      · intro hok
        rw [hco] at hok
        simp at hok

/-- C6 (witness): the theorem applied to the concrete fatal task - the
parse returns failure and the parser error is recorded on the task. -/
theorem message_parse_success_iff_witness :
    (rspamd_message_parse trivialOracles failTask).ok = false ∧
    (rspamd_message_parse trivialOracles failTask).err = some "bad mime" := by
  have h := message_parse_success_iff trivialOracles failTask
  have hok : (rspamd_message_parse trivialOracles failTask).ok = false :=
    h.1.mpr ⟨by decide, rfl, rfl, cfgForbid, rfl, rfl⟩
  exact ⟨hok, (h.2 hok).trans rfl⟩

/-! ## C7: the message id after parse -/

/-- C7 (amended): after every SUCCESSFUL parse of a NON-EMPTY task whose
message id was initially unset, the message id is non-null: it is the
first Message-ID header with the leading angle bracket dropped (and the
trailing one dropped as well only when the value both begins and ends
with brackets); with no such header it is the generated id whenever the
message was synthesized from raw data (MIME flag off, or MIME parse
failed with raw input allowed), and the sentinel "undef" otherwise.  An
EMPTY task returns success without touching the message id at all. -/
theorem message_id_after_parse_amended (O : Oracles) (t : RspamdTask)
    (hmsg : t.msg ≠ []) (hmid : t.message_id = none)
    (hok : (rspamd_message_parse O t).ok = true) :
    (rspamd_message_parse O t).message_id =
      some (match headerLookup t.headers "Message-ID" with
        | some (h :: _) => rspamd_strip_message_id h
        | _ => if t.flag_mime = true ∧ t.mime_ok = true then "undef" else O.gen_mid) := by
  by_cases hfail : t.flag_mime = true ∧ t.mime_ok = false ∧ cfgForbidsRaw t.cfg = true
  · exact absurd hok (by simp [rspamd_message_parse, hmsg, hfail])
  · have hopen : (rspamd_message_parse O t).message_id =
        (match (match headerLookup t.headers "Message-ID" with
          | some (h :: _) => some (rspamd_strip_message_id h)
          | _ => if t.flag_mime = false ∨ t.mime_ok = false
              then some O.gen_mid else t.message_id) with
        | none => some "undef"
        | some s => some s) := by
      simp [rspamd_message_parse, hmsg, hfail]
    rw [hopen]
    rcases hh : headerLookup t.headers "Message-ID" with - | hs
    · cases hb : t.flag_mime <;> cases hbo : t.mime_ok <;>
        simp [hb, hbo, hmid]
    · cases hs with
      | nil =>
        cases hb : t.flag_mime <;> cases hbo : t.mime_ok <;>
          simp [hb, hbo, hmid]
      | cons h rest => simp

/-- C7 (counterexample): the empty task parses successfully yet keeps a
null message id - the early return for empty tasks happens before the
"undef" fallback, contradicting the claim that the message id is
non-null after every successful parse. -/
theorem empty_task_message_id_unset :
    (rspamd_message_parse trivialOracles emptyTask).ok = true ∧
    (rspamd_message_parse trivialOracles emptyTask).message_id = none := by
  refine ⟨rfl, rfl⟩

/-- C7 (witness): the amended theorem applied to the concrete task with
a bracketed Message-ID header. -/
theorem message_id_after_parse_amended_witness :
    (rspamd_message_parse trivialOracles midTask).message_id = some "abc@x" := by
  have h := message_id_after_parse_amended trivialOracles midTask
    (by decide) rfl (by decide)
  exact h.trans (by decide)

/-! ## C8: whitespace trim and the mbox From line -/

/-- C8 (amended): leading whitespace is always trimmed; then, unless the
task is JSON-flagged without the local-client flag, whenever the trimmed
input starts with "From " AND extends beyond those five bytes (the code
guards the comparison with `len > sizeof ("From ") - 1`), everything up
to the next LF and any following whitespace is skipped.  The trimmed
input that is exactly "From " is NOT treated as an mbox envelope. -/
theorem mbox_preprocess_amended (json local_client : Bool) (msg : List Char) :
    ((json = false ∨ local_client = true) →
      5 < (msg.dropWhile g_ascii_isspace).length →
      (msg.dropWhile g_ascii_isspace).take 5 = ("From ").toList →
      rspamd_message_preprocess json local_client msg =
        (((msg.dropWhile g_ascii_isspace).drop 5).dropWhile
          (fun c => c ≠ '\n')).dropWhile g_ascii_isspace) ∧
    (json = true → local_client = false →
      rspamd_message_preprocess json local_client msg =
        msg.dropWhile g_ascii_isspace) ∧
    (¬ (5 < (msg.dropWhile g_ascii_isspace).length ∧
        (msg.dropWhile g_ascii_isspace).take 5 = ("From ").toList) →
      rspamd_message_preprocess json local_client msg =
        msg.dropWhile g_ascii_isspace) := by
  refine ⟨?_, ?_, ?_⟩
  · intro hjs hlen htake
    unfold rspamd_message_preprocess
    rw [if_pos hjs, if_pos hlen, if_pos]
    exact (isPrefixOf_iff_take (("From ").toList) (msg.dropWhile g_ascii_isspace)).mpr htake
  · intro hj hl
    unfold rspamd_message_preprocess
    rw [if_neg]
    rw [hj, hl]
    rintro (h | h)
    · exact absurd h (by decide)
    · exact absurd h (by decide)
  · intro hnot
    unfold rspamd_message_preprocess
    by_cases hjs : json = false ∨ local_client = true
    · rw [if_pos hjs]
      by_cases hlen : 5 < (msg.dropWhile g_ascii_isspace).length
      · rw [if_pos hlen, if_neg]
        intro hpref
        exact hnot ⟨hlen,
          (isPrefixOf_iff_take (("From ").toList) (msg.dropWhile g_ascii_isspace)).mp hpref⟩
      · rw [if_neg hlen]
    · rw [if_neg hjs]

/-- C8 (counterexample): the five-byte input that is exactly "From "
begins with "From ", yet the preprocessing leaves it untouched - the
claim would have the parser skip the envelope line, consuming it. -/
theorem mbox_from_exact_not_skipped :
    (("From ").toList).isPrefixOf ((("From ").toList).dropWhile g_ascii_isspace) = true ∧
    rspamd_message_preprocess false false (("From ").toList) = ("From ").toList ∧
    ("From ").toList ≠ ([] : List Char) := by
  refine ⟨by decide, by decide, by decide⟩

/-- C8 (witness): the amended theorem applied to a concrete mbox-wrapped
input. -/
theorem mbox_preprocess_amended_witness :
    rspamd_message_preprocess false false (("  From a@b Fri\n  hello").toList) =
      ("hello").toList := by
  have h := (mbox_preprocess_amended false false
    (("  From a@b Fri\n  hello").toList)).1 (Or.inl rfl) (by decide) (by decide)
  exact h.trans (by decide)
